import Mathlib

/-!
Shallow embedding of the core of the `feeds` repository
(`src/feeds/model/feed.py` and `src/feeds/model/entry.py`):
the link-keyed entry cache, the per-feed entry download pipeline,
the feed-list load/save persistence, and the relative-date formatting.

External collaborators (the feed parser, the article extractor, the HTTP
byte fetcher, the filesystem) are modelled as explicit parameters:
fallible calls become `Except`/`Option` values.  Python dictionaries are
modelled as association lists with shadowing insert (lookup finds the most
recent binding), which matches dictionary lookup/overwrite semantics.
-/

/-- Raw image data (`bytes` in the source). -/
abbrev Bytes := List Nat

/-- Embeds `Entry` of `src/feeds/model/entry.py`: the downloaded
representation of one article.  `parentFeed` is modelled as a numeric
feed identifier (a non-owning handle), since the Python object graph is
cyclic.  Field names follow the `_parent_feed`, `_title`, `_link`,
`_html`, `_top_image`, `_top_image_url`, `_icon`, `_date` attributes. -/
structure Entry where
  parentFeed : Nat
  title : String
  link : String
  html : String
  topImage : Option Bytes
  topImageUrl : String
  icon : Option Bytes
  date : String
deriving DecidableEq, Repr

/-- A Python `dict[str, Entry]`, as an association list with shadowing
insert: lookup returns the most recently inserted binding for a key. -/
abbrev EntryMap := List (String × Entry)

/-- Dictionary lookup: the first (most recent) binding for `l`. -/
def EntryMap.find : EntryMap → String → Option Entry
  | [], _ => none
  | (k, v) :: rest, l => if k = l then some v else EntryMap.find rest l

/-- Dictionary overwrite `m[k] = v`: the new binding shadows any old one. -/
def EntryMap.insert (m : EntryMap) (k : String) (v : Entry) : EntryMap :=
  (k, v) :: m

/-- Embeds `EntryCache` of `src/feeds/model/feed.py`: `entries` is the
`store` map loaded from disk and augmented at runtime; `used` records the
bindings retrieved through `get` during this run. -/
structure EntryCache where
  entries : EntryMap
  used : EntryMap
deriving DecidableEq, Repr

/-- Embeds `EntryCache.__init__`: deserializing the cache file either
yields a map (which becomes `entries`) or fails, in which case the error
is logged and the cache starts empty; `used` always starts empty. -/
def EntryCache.init (disk : Except String EntryMap) : EntryCache :=
  match disk with
  | .ok m => { entries := m, used := [] }
  | .error _ => { entries := [], used := [] }

/-- Embeds `EntryCache.get`: on a hit the entry is also recorded in
`used` and returned; on a miss (`KeyError`) `None` is returned and the
cache is unchanged.  Returns the result together with the new cache
state. -/
def EntryCache.get (c : EntryCache) (link : String) : Option Entry × EntryCache :=
  match c.entries.find link with
  | some e => (some e, { c with used := c.used.insert link e })
  | none => (none, c)

/-- Embeds `EntryCache.put`: unconditionally insert/overwrite in
`entries`; `used` is untouched. -/
def EntryCache.put (c : EntryCache) (link : String) (e : Entry) : EntryCache :=
  { c with entries := c.entries.insert link e }

/-- Embeds `EntryCache.save`: on success the `used` map is pickled to the
cache file (replacing its previous content); on failure the error is
logged, nothing is written, and no exception escapes (the function is
total).  `disk` is the file content before the call; the result is the
file content after it. -/
def EntryCache.save (c : EntryCache) (writable : Bool) (disk : EntryMap) : EntryMap :=
  if writable then c.used else disk

/-- An API call on the cache: the operations `get` and `put` through
which every reachable cache state arises. -/
inductive CacheOp where
  | get (link : String)
  | put (link : String) (e : Entry)

/-- Apply one cache operation, keeping the resulting state. -/
def EntryCache.applyOp (c : EntryCache) : CacheOp → EntryCache
  | .get l => (c.get l).2
  | .put l e => c.put l e

/-- Apply a sequence of cache operations in order. -/
def EntryCache.applyOps (c : EntryCache) (ops : List CacheOp) : EntryCache :=
  ops.foldl EntryCache.applyOp c

/-- Embeds `Entry._construct_date` of `src/feeds/model/entry.py`.  The
argument is the `datetime.timedelta` between now and the entry's
timestamp, given by its normalized `days` and `seconds` components
(for a past timestamp, `0 <= seconds < 86400`).  It picks the largest
applicable unit (months as `days // 30`, then days, hours, minutes),
appends an `s` when the value exceeds 1, and renders `f"{value} {unit} ago"`. -/
def Entry.constructDate (days seconds : Nat) : String :=
  let months := days / 30
  let hours := seconds / 3600
  let minutes := seconds / 60
  let vu : Nat × String :=
    if months > 0 then (months, "month")
    else if days > 0 then (days, "day")
    else if hours > 0 then (hours, "hour")
    else (minutes, "minute")
  let value := vu.1
  let unitStr := if value > 1 then vu.2 ++ "s" else vu.2
  Nat.repr value ++ " " ++ unitStr ++ " ago"

/-- Embeds the timestamp handling of `Entry.__init__`: use
`published_parsed` when present, otherwise `created_parsed`, otherwise
the date string is empty.  Timestamps and `now` are seconds since epoch;
the timedelta components passed to `Entry.constructDate` are
`delta / 86400` days and `delta % 86400` seconds, matching Python's
normalized `timedelta.days` / `timedelta.seconds` for a past timestamp. -/
def entryDateString (published created : Option Nat) (now : Nat) : String :=
  match published with
  | some t => Entry.constructDate ((now - t) / 86400) ((now - t) % 86400)
  | none =>
    match created with
    | some t => Entry.constructDate ((now - t) / 86400) ((now - t) % 86400)
    | none => ""

/-- Renders one value-unit pair the way the spec's date-formatting policy
describes: pluralize exactly when the value is greater than 1. -/
def specPhrase (value : Nat) (u : String) : String :=
  Nat.repr value ++ " " ++ (if value > 1 then u ++ "s" else u) ++ " ago"

/-- Modelled from the spec: the date-formatting policy. Express the
elapsed time as the largest applicable unit among months
(`days / 30`, floored), days, hours, minutes, in that priority order. -/
def specRelativeDate (days seconds : Nat) : String :=
  if days / 30 > 0 then specPhrase (days / 30) "month"
  else if days > 0 then specPhrase days "day"
  else if seconds / 3600 > 0 then specPhrase (seconds / 3600) "hour"
  else specPhrase (seconds / 60) "minute"

/-- One raw entry descriptor from the feed parser (`feedparser` item):
a link, a title and the optional `published_parsed` / `created_parsed`
timestamps (seconds since epoch). -/
structure RawEntry where
  link : String
  title : String
  published : Option Nat
  created : Option Nat
deriving DecidableEq, Repr

/-- The article-extraction result (`newspaper.Article` after
`download()` and `parse()`): the extracted HTML and the top-image URL. -/
structure Article where
  articleHtml : String
  topImage : String
deriving DecidableEq, Repr

/-- Embeds `Feed` of `src/feeds/model/feed.py`: per-feed metadata and the
append-only list of downloaded entries.  The `feedparser` document and
the spawned worker pool live outside the data model and are passed to
`downloadEntries` explicitly. -/
structure Feed where
  url : String
  display : String
  enabled : Bool
  icon : Option Bytes
  entries : List Entry
deriving DecidableEq, Repr

/-- Embeds `Feed._download_image`: the HTTP request either fails
(`.error`, any raised exception) or returns a status code and body.
The body is returned exactly on status 200; any other status falls
through to `None`, and an exception is swallowed into `None`.  The
function is total: no failure escapes to the caller. -/
def Feed.downloadImage (resp : Except String (Nat × Bytes)) : Option Bytes :=
  match resp with
  | .error _ => none
  | .ok (status, content) => if status = 200 then some content else none

/-- The mutable state threaded through `Feed.download_entries`: the
shared cache, the feed's `_entries` list, and the entries pushed onto the
delivery `Queue` so far (in push order). -/
structure DLState where
  cache : EntryCache
  entries : List Entry
  queue : List Entry
deriving DecidableEq, Repr

/-- Models the in-place mutation `cached._parent_feed = self` seen
through the cache: the Python `Entry` object is aliased from `entries`
and (after the hit) `used`, so both maps observe the new binding. -/
def EntryCache.mutateAt (c : EntryCache) (l : String) (e : Entry) : EntryCache :=
  { entries := c.entries.insert l e, used := c.used.insert l e }

/-- Embeds the unit of work `download_entry` inside
`Feed.download_entries`.  On a cache hit the cached entry is re-parented
to this feed and reused; on a miss the article extractor runs (its
failure kills just this unit: nothing is appended or pushed, matching an
uncaught exception inside `executor.map`), the top image is fetched
(failure tolerated), a new `Entry` is built, `put` into the cache and
immediately `get` to force it into `used`.  Either way the resulting
entry is appended to the feed's list and pushed onto the queue. -/
def downloadEntry (fid : Nat) (icon : Option Bytes)
    (extract : RawEntry → Option Article) (fetchImage : String → Option Bytes)
    (now : Nat) (st : DLState) (raw : RawEntry) : DLState :=
  match st.cache.get raw.link with
  | (some cached, c1) =>
    let e := { cached with parentFeed := fid }
    { cache := c1.mutateAt raw.link e
      entries := st.entries ++ [e]
      queue := st.queue ++ [e] }
  | (none, c1) =>
    match extract raw with
    | none => { st with cache := c1 }
    | some art =>
      let img := fetchImage art.topImage
      let e : Entry :=
        { parentFeed := fid, title := raw.title, link := raw.link
          html := art.articleHtml, topImage := img, topImageUrl := art.topImage
          icon := icon, date := entryDateString raw.published raw.created now }
      let c2 := c1.put raw.link e
      let c3 := (c2.get raw.link).2
      { cache := c3, entries := st.entries ++ [e], queue := st.queue ++ [e] }

/-- Embeds `Feed.download_entries`: every raw entry of the parsed feed is
processed by `downloadEntry`.  The worker pool's interleaving is modelled
as a sequential fold; each unit appends and pushes exactly once. -/
def downloadEntries (fid : Nat) (icon : Option Bytes)
    (extract : RawEntry → Option Article) (fetchImage : String → Option Bytes)
    (now : Nat) (st : DLState) (raws : List RawEntry) : DLState :=
  raws.foldl (downloadEntry fid icon extract fetchImage now) st

/-- One record of the feed-list JSON file, and equally the
`saved_state` dictionary written by `FeedList.save`:
`{"url": ..., "display": ..., "enabled": ...}`. -/
structure FeedRecord where
  url : String
  display : String
  enabled : Bool
deriving DecidableEq, Repr

/-- The metadata triple `FeedList.save` writes for one feed. -/
def Feed.savedState (f : Feed) : FeedRecord :=
  { url := f.url, display := f.display, enabled := f.enabled }

/-- Embeds `FeedList` of `src/feeds/model/feed.py`. -/
structure FeedList where
  feeds : List Feed
deriving DecidableEq, Repr

/-- Embeds `FeedList.save`: on success the metadata triples of every
feed, in list order, are serialized to the file; an `OSError` is logged
and re-raised, i.e. it propagates to the caller as an error. -/
def FeedList.save (fl : FeedList) (writable : Bool) : Except String (List FeedRecord) :=
  if writable then .ok (fl.feeds.map Feed.savedState) else .error "OSError"

/-- Python's `str.rstrip()`: drop trailing whitespace characters. -/
def rstrip (s : String) : String :=
  String.mk ((s.data.reverse.dropWhile Char.isWhitespace).reverse)

/-- The `for data in feeds_data` loop of `FeedList.load`.  Each record's
URL is right-stripped and handed to the `Feed` constructor (abstracted as
`construct`, since it performs network fetches); a successful feed is
appended.  The `except FeedParseError` in the source wraps the whole
loop, so the first construction failure stops processing: records after
it are never attempted. -/
def FeedList.loadLoop (construct : FeedRecord → Except String Feed) :
    List FeedRecord → List Feed → List Feed
  | [], acc => acc
  | r :: rs, acc =>
    match construct { r with url := rstrip r.url } with
    | .ok f => FeedList.loadLoop construct rs (acc ++ [f])
    | .error _ => acc

/-- Embeds `FeedList.load`: `fileData` is the combined result of opening
the file and `json.load` (missing/unreadable file or invalid JSON gives
`.error`); any such failure is caught by the outer `except Exception`,
logged, and leaves the feed list untouched.  On success the load loop
runs and its feeds are appended to the list. -/
def FeedList.load (fl : FeedList) (fileData : Except String (List FeedRecord))
    (construct : FeedRecord → Except String Feed) : FeedList :=
  match fileData with
  | .error _ => fl
  | .ok recs => { feeds := fl.feeds ++ FeedList.loadLoop construct recs [] }

/-- A concrete entry used by concrete evaluations. -/
def entryA : Entry :=
  { parentFeed := 0, title := "tA", link := "a", html := "<p>A</p>"
    topImage := none, topImageUrl := "uA", icon := none, date := "" }

/-- A second concrete entry, differing from `entryA` in every text field. -/
def entryB : Entry :=
  { parentFeed := 1, title := "tB", link := "b", html := "<p>B</p>"
    topImage := some [7], topImageUrl := "uB", icon := some [3], date := "1 day ago" }

/-- A concrete feed used by concrete evaluations of `FeedList.load`. -/
def demoFeed : Feed :=
  { url := "good", display := "G", enabled := true, icon := none, entries := [] }

/-- A concrete `Feed` constructor for `FeedList.load` evaluations: the
URL `"bad"` raises `FeedParseError`, every other URL parses. -/
def demoConstruct : FeedRecord → Except String Feed :=
  fun r => if r.url = "bad" then .error "FeedParseError" else .ok { demoFeed with url := r.url }

/-- Domain inclusion between the cache's two maps: every link bound in
`used` is bound (to some entry) in `entries`. -/
def usedDomSub (c : EntryCache) : Prop :=
  ∀ l, ((EntryMap.find c.used l)).isSome → ((EntryMap.find c.entries l)).isSome

/-- Inserting a binding never removes a key from a map's domain. -/
theorem EntryMap.find_insert_isSome {m : EntryMap} {k l : String} {v : Entry}
    (h : (EntryMap.find m l).isSome) : (EntryMap.find (m.insert k v) l).isSome := by
  by_cases hk : k = l <;> simp [EntryMap.insert, EntryMap.find, hk, h]

/-- A `get` preserves domain inclusion: a hit copies an existing
`entries` binding into `used`, a miss changes nothing. -/
theorem usedDomSub_get {c : EntryCache} (h : usedDomSub c) (l : String) :
    usedDomSub (c.get l).2 := by
  unfold EntryCache.get
  cases hf : EntryMap.find c.entries l with
  | none => exact h
  | some e =>
    intro l' hl'
    simp only at hl' ⊢
    by_cases he : l = l'
    · subst he
      simp [hf]
    · exact h l' (by simpa [EntryMap.insert, EntryMap.find, he] using hl')

/-- A `put` preserves domain inclusion: it only grows `entries`. -/
theorem usedDomSub_put {c : EntryCache} (h : usedDomSub c) (l : String) (e : Entry) :
    usedDomSub (c.put l e) := by
  intro l' hl'
  exact EntryMap.find_insert_isSome (h l' hl')

/-- Each cache operation preserves domain inclusion. -/
theorem usedDomSub_applyOp {c : EntryCache} (h : usedDomSub c) (op : CacheOp) :
    usedDomSub (c.applyOp op) := by
  cases op with
  | get l => exact usedDomSub_get h l
  | put l e => exact usedDomSub_put h l e

/-- Every sequence of cache operations preserves domain inclusion. -/
theorem usedDomSub_applyOps {c : EntryCache} (h : usedDomSub c) (ops : List CacheOp) :
    usedDomSub (c.applyOps ops) := by
  induction ops generalizing c with
  | nil => exact h
  | cons op rest ih => exact ih (usedDomSub_applyOp h op)

/-- A freshly constructed cache has an empty `used` map, so domain
inclusion holds at construction whatever the disk held. -/
theorem usedDomSub_init (disk : Except String EntryMap) :
    usedDomSub (EntryCache.init disk) := by
  intro l hl
  cases disk <;> simp [EntryCache.init, EntryMap.find] at hl

/-- C3 counterexample: the claim fails at the binding level.  Starting
from an empty cache, `put "a" entryA; get "a"; put "a" entryB` leaves
`used` binding `"a"` to `entryA` while `entries` (the store) binds it to
`entryB`, so the `used` binding is not the `store` binding. -/
theorem C3_counterexample :
    ((EntryCache.init (Except.ok [])).applyOps
        [CacheOp.put "a" entryA, CacheOp.get "a", CacheOp.put "a" entryB]).used.find "a"
        = some entryA
    ∧ ((EntryCache.init (Except.ok [])).applyOps
        [CacheOp.put "a" entryA, CacheOp.get "a", CacheOp.put "a" entryB]).entries.find "a"
        = some entryB
    ∧ entryA ≠ entryB := by
  decide

/-- C3 (amended): for every cache state reachable from construction by
any sequence of `get` and `put` operations, the domain of `used` is
included in the domain of `entries` (the store): every link bound in
`used` is also bound in the store, though an overwriting `put` can make
the two bindings differ. -/
theorem C3_used_domain_subset (disk : Except String EntryMap) (ops : List CacheOp)
    (l : String)
    (h : ((((EntryCache.init disk).applyOps ops).used).find l).isSome) :
    ((((EntryCache.init disk).applyOps ops).entries).find l).isSome :=
  usedDomSub_applyOps (usedDomSub_init disk) ops l h

/-- C3 witness: the amended theorem applied to the cache loaded from a
disk holding `"a"`, after a single `get "a"` (which puts `"a"` into
`used`). -/
theorem C3_witness :
    ((((EntryCache.init (Except.ok [("a", entryA)])).applyOps
        [CacheOp.get "a"]).entries).find "a").isSome :=
  C3_used_domain_subset (Except.ok [("a", entryA)]) [CacheOp.get "a"] "a" (by decide)

/-- C2 counterexample: the claim quantifies over every starting cache,
but a cache whose `used` map already holds `l2 = "b"` (reachable: the
disk held `"b"` and it was `get` earlier this run) still persists `"b"`:
after `put "a" entryA; put "b" entryB; get "a"; save()`, the fresh cache
constructed from the written file does contain `"b"`. -/
theorem C2_counterexample :
    (let c0 := ((EntryCache.init (Except.ok [("b", entryB)])).get "b").2
     let c3 := (((c0.put "a" entryA).put "b" entryB).get "a").2
     (EntryCache.init (Except.ok (c3.save true []))).entries.find "b" ≠ none) := by
  decide

/-- C2 (amended): for every cache whose `used` map does not yet contain
`l2`, and distinct links `l1 ≠ l2`, after `put l1 e1; put l2 e2; get l1`,
a successful `save()` followed by a fresh cache construction from the
written file yields a store containing `l1` (bound to `e1`) but not
`l2`; indeed the fresh store is exactly the `used` map at save time —
persistence writes `used`, not the store. -/
theorem C2_used_only_persistence (c : EntryCache) (l1 l2 : String) (e1 e2 : Entry)
    (hne : l1 ≠ l2) (hl2 : c.used.find l2 = none) :
    (EntryCache.init (Except.ok
        ((((c.put l1 e1).put l2 e2).get l1).2.save true []))).entries.find l1 = some e1
    ∧ (EntryCache.init (Except.ok
        ((((c.put l1 e1).put l2 e2).get l1).2.save true []))).entries.find l2 = none
    ∧ (EntryCache.init (Except.ok
        ((((c.put l1 e1).put l2 e2).get l1).2.save true []))).entries
        = (((c.put l1 e1).put l2 e2).get l1).2.used := by
  have hne' : l2 ≠ l1 := fun h => hne h.symm
  refine ⟨?_, ?_, ?_⟩ <;>
    simp [EntryCache.put, EntryCache.get, EntryCache.save, EntryCache.init,
      EntryMap.insert, EntryMap.find, hne, hne', hl2]

/-- C2 witness: the amended theorem applied to the empty starting cache
with `l1 = "a"`, `l2 = "b"`. -/
theorem C2_witness :
    (EntryCache.init (Except.ok
        (((((EntryCache.init (Except.ok [])).put "a" entryA).put "b" entryB).get
            "a").2.save true []))).entries.find "a" = some entryA
    ∧ (EntryCache.init (Except.ok
        (((((EntryCache.init (Except.ok [])).put "a" entryA).put "b" entryB).get
            "a").2.save true []))).entries.find "b" = none
    ∧ (EntryCache.init (Except.ok
        (((((EntryCache.init (Except.ok [])).put "a" entryA).put "b" entryB).get
            "a").2.save true []))).entries
        = ((((EntryCache.init (Except.ok [])).put "a" entryA).put "b" entryB).get
            "a").2.used :=
  C2_used_only_persistence (EntryCache.init (Except.ok [])) "a" "b" entryA entryB
    (by decide) (by decide)

/-- C4: `put l e` then `get l` returns the entry `e` itself (equal in
all fields); `get` on a link absent from the store returns `none` and
leaves the whole cache — in particular `used` — unmodified; `get` on a
hit also inserts the returned binding into `used`. -/
theorem C4_cache_roundtrip :
    (∀ (c : EntryCache) (l : String) (e : Entry), ((c.put l e).get l).1 = some e)
    ∧ (∀ (c : EntryCache) (l : String), c.entries.find l = none →
        (c.get l).1 = none ∧ (c.get l).2 = c)
    ∧ (∀ (c : EntryCache) (l : String) (e : Entry), c.entries.find l = some e →
        (c.get l).1 = some e ∧ ((c.get l).2).used = c.used.insert l e
          ∧ ((c.get l).2).entries = c.entries) := by
  refine ⟨?_, ?_, ?_⟩
  · intro c l e
    simp [EntryCache.get, EntryCache.put, EntryMap.find, EntryMap.insert]
  · intro c l h
    simp [EntryCache.get, h]
  · intro c l e h
    simp [EntryCache.get, h]

/-- C4 witness: the round-trip on link `"a"` with `entryA` from the
empty cache, the miss on the empty cache, and the hit on a one-entry
store. -/
theorem C4_witness :
    ((((EntryCache.init (Except.ok [])).put "a" entryA).get "a").1 = some entryA)
    ∧ (((EntryCache.init (Except.ok [])).get "a").1 = none
        ∧ ((EntryCache.init (Except.ok [])).get "a").2 = EntryCache.init (Except.ok []))
    ∧ (((EntryCache.init (Except.ok [("a", entryA)])).get "a").1 = some entryA) :=
  ⟨C4_cache_roundtrip.1 (EntryCache.init (Except.ok [])) "a" entryA,
   C4_cache_roundtrip.2.1 (EntryCache.init (Except.ok [])) "a" (by decide),
   (C4_cache_roundtrip.2.2 (EntryCache.init (Except.ok [("a", entryA)])) "a" entryA
      (by decide)).1⟩

/-- C5: the relative-date string produced by `Entry._construct_date`
agrees everywhere with the spec's policy (largest applicable unit among
months = days/30 floored, days, hours, minutes, in that priority order,
pluralized exactly when the value exceeds 1); a timestamp 90 days in the
past renders "3 months ago", 5 hours as "5 hours ago", 1 minute as
"1 minute ago"; and a raw entry with neither a published nor a created
timestamp gets the empty date string. -/
theorem C5_relative_date :
    (∀ days seconds : Nat, Entry.constructDate days seconds = specRelativeDate days seconds)
    ∧ entryDateString (some 0) none 7776000 = "3 months ago"
    ∧ entryDateString none (some 0) 18000 = "5 hours ago"
    ∧ entryDateString (some 0) none 60 = "1 minute ago"
    ∧ (∀ now : Nat, entryDateString none none now = "") := by
  refine ⟨?_, by decide, by decide, by decide, fun now => rfl⟩
  intro d s
  unfold Entry.constructDate specRelativeDate specPhrase
  by_cases h1 : d / 30 > 0
  · simp [h1]
  · by_cases h2 : d > 0
    · simp [h1, h2]
    · by_cases h3 : s / 3600 > 0
      · simp [h1, h2, h3]
      · simp [h1, h2, h3]

/-- C6: on a cache hit, `download_entry` reuses the cached entry, sets
its `parentFeed` to the requesting feed, appends it to the feed's list
and pushes it onto the queue; every other field (link, title, html,
topImage, topImageURL, icon, date) keeps the cached value — the result
is the cached record with only `parentFeed` replaced, no fresh entry is
built. -/
theorem C6_cache_hit_reparent (fid : Nat) (icon : Option Bytes)
    (extract : RawEntry → Option Article) (fetchImage : String → Option Bytes)
    (now : Nat) (st : DLState) (raw : RawEntry) (cached : Entry) (c1 : EntryCache)
    (h : st.cache.get raw.link = (some cached, c1)) :
    downloadEntry fid icon extract fetchImage now st raw =
      { cache := c1.mutateAt raw.link { cached with parentFeed := fid }
        entries := st.entries ++ [{ cached with parentFeed := fid }]
        queue := st.queue ++ [{ cached with parentFeed := fid }] }
    ∧ ({ cached with parentFeed := fid } : Entry).parentFeed = fid
    ∧ ({ cached with parentFeed := fid } : Entry).link = cached.link
    ∧ ({ cached with parentFeed := fid } : Entry).title = cached.title
    ∧ ({ cached with parentFeed := fid } : Entry).html = cached.html
    ∧ ({ cached with parentFeed := fid } : Entry).topImage = cached.topImage
    ∧ ({ cached with parentFeed := fid } : Entry).topImageUrl = cached.topImageUrl
    ∧ ({ cached with parentFeed := fid } : Entry).icon = cached.icon
    ∧ ({ cached with parentFeed := fid } : Entry).date = cached.date := by
  refine ⟨?_, rfl, rfl, rfl, rfl, rfl, rfl, rfl, rfl⟩
  unfold downloadEntry
  rw [h]

/-- C6 witness: a hit on link `"a"` with `entryA` cached, requested by
feed 5. -/
theorem C6_witness :
    downloadEntry 5 none (fun _ => none) (fun _ => none) 0
        { cache := { entries := [("a", entryA)], used := [] }, entries := [], queue := [] }
        { link := "a", title := "tA", published := none, created := none } =
      { cache := EntryCache.mutateAt { entries := [("a", entryA)], used := [("a", entryA)] }
          "a" { entryA with parentFeed := 5 }
        entries := [] ++ [{ entryA with parentFeed := 5 }]
        queue := [] ++ [{ entryA with parentFeed := 5 }] }
    ∧ ({ entryA with parentFeed := 5 } : Entry).parentFeed = 5
    ∧ ({ entryA with parentFeed := 5 } : Entry).link = entryA.link
    ∧ ({ entryA with parentFeed := 5 } : Entry).title = entryA.title
    ∧ ({ entryA with parentFeed := 5 } : Entry).html = entryA.html
    ∧ ({ entryA with parentFeed := 5 } : Entry).topImage = entryA.topImage
    ∧ ({ entryA with parentFeed := 5 } : Entry).topImageUrl = entryA.topImageUrl
    ∧ ({ entryA with parentFeed := 5 } : Entry).icon = entryA.icon
    ∧ ({ entryA with parentFeed := 5 } : Entry).date = entryA.date :=
  C6_cache_hit_reparent 5 none (fun _ => none) (fun _ => none) 0
    { cache := { entries := [("a", entryA)], used := [] }, entries := [], queue := [] }
    { link := "a", title := "tA", published := none, created := none }
    entryA { entries := [("a", entryA)], used := [("a", entryA)] } (by decide)

/-- A unit of work whose extraction succeeds appends exactly one entry
to the feed's list and pushes exactly that entry onto the queue (a cache
hit never consults the extractor and also appends exactly one). -/
theorem downloadEntry_appends {extract : RawEntry → Option Article} (fid : Nat)
    (icon : Option Bytes) (fetchImage : String → Option Bytes) (now : Nat)
    (st : DLState) (raw : RawEntry) (h : (extract raw).isSome) :
    ∃ e, (downloadEntry fid icon extract fetchImage now st raw).entries = st.entries ++ [e]
      ∧ (downloadEntry fid icon extract fetchImage now st raw).queue = st.queue ++ [e] := by
  unfold downloadEntry
  rcases hg : st.cache.get raw.link with ⟨o, c1⟩
  cases o with
  | some cached => exact ⟨_, rfl, rfl⟩
  | none =>
    rcases hx : extract raw with _ | art
    · rw [hx] at h
      simp at h
    · exact ⟨_, rfl, rfl⟩

/-- C7: when the extractor succeeds on every raw entry (no permanent
per-entry failure), `download_entries` over N raw entries grows the
feed's `entries` list by exactly N and pushes exactly N entries onto the
delivery queue — one append and one push per raw entry. -/
theorem C7_entry_count (fid : Nat) (icon : Option Bytes)
    (extract : RawEntry → Option Article) (fetchImage : String → Option Bytes)
    (now : Nat) (raws : List RawEntry) (st : DLState)
    (h : ∀ r ∈ raws, (extract r).isSome) :
    (downloadEntries fid icon extract fetchImage now st raws).entries.length
        = st.entries.length + raws.length
    ∧ (downloadEntries fid icon extract fetchImage now st raws).queue.length
        = st.queue.length + raws.length := by
  induction raws generalizing st with
  | nil => simp [downloadEntries]
  | cons r rs ih =>
    obtain ⟨e, he, hq⟩ :=
      downloadEntry_appends fid icon fetchImage now st r (h r (by simp))
    have hrec := ih (downloadEntry fid icon extract fetchImage now st r)
      (fun r' hr' => h r' (by simp [hr']))
    have hstep : downloadEntries fid icon extract fetchImage now st (r :: rs)
        = downloadEntries fid icon extract fetchImage now
            (downloadEntry fid icon extract fetchImage now st r) rs := rfl
    rw [hstep]
    rcases hrec with ⟨h1, h2⟩
    constructor
    · rw [h1, he]
      simp
      omega
    · rw [h2, hq]
      simp
      omega

/-- C7 witness: two raw entries, an always-succeeding extractor, an
empty cache: two entries end in the list and two on the queue. -/
theorem C7_witness :
    (downloadEntries 0 none (fun _ => some { articleHtml := "h", topImage := "u" })
        (fun _ => none) 0
        { cache := EntryCache.init (Except.ok []), entries := [], queue := [] }
        [{ link := "a", title := "t1", published := none, created := none },
         { link := "b", title := "t2", published := none, created := none }]).entries.length
        = 0 + 2
    ∧ (downloadEntries 0 none (fun _ => some { articleHtml := "h", topImage := "u" })
        (fun _ => none) 0
        { cache := EntryCache.init (Except.ok []), entries := [], queue := [] }
        [{ link := "a", title := "t1", published := none, created := none },
         { link := "b", title := "t2", published := none, created := none }]).queue.length
        = 0 + 2 :=
  C7_entry_count 0 none (fun _ => some { articleHtml := "h", topImage := "u" })
    (fun _ => none) 0
    [{ link := "a", title := "t1", published := none, created := none },
     { link := "b", title := "t2", published := none, created := none }]
    { cache := EntryCache.init (Except.ok []), entries := [], queue := [] }
    (fun _ _ => rfl)

/-- C8: `FeedList.save` writes the `{url, display, enabled}` metadata
triple of every feed in list order; a write failure (`OSError`, e.g. an
unwritable path) is re-raised to the caller as an error, whereas the
cache's own `save` swallows its failure and returns normally — feed-list
save is the persistence operation whose I/O error propagates. -/
theorem C8_feedlist_save (fl : FeedList) :
    fl.save true = Except.ok (fl.feeds.map Feed.savedState)
    ∧ fl.save false = Except.error "OSError"
    ∧ (∀ (c : EntryCache) (disk : EntryMap), c.save false disk = disk) :=
  ⟨rfl, rfl, fun _ _ => rfl⟩

/-- C9: `Feed._download_image` is total (no failure escapes) and returns
the response body exactly when the HTTP request succeeded with status
200: a transport error yields `none`, and a response with any other
status yields `none`. -/
theorem C9_download_image :
    (∀ (resp : Except String (Nat × Bytes)) (b : Bytes),
        Feed.downloadImage resp = some b ↔ resp = Except.ok (200, b))
    ∧ (∀ e : String, Feed.downloadImage (Except.error e) = none)
    ∧ (∀ (status : Nat) (content : Bytes),
        Feed.downloadImage (Except.ok (status, content))
          = if status = 200 then some content else none) := by
  refine ⟨?_, fun _ => rfl, fun _ _ => rfl⟩
  intro resp b
  constructor
  · intro h
    rcases resp with e | ⟨s, c⟩
    · simp [Feed.downloadImage] at h
    · by_cases hs : s = 200
      · subst hs
        simp [Feed.downloadImage] at h
        rw [h]
      · simp [Feed.downloadImage, hs] at h
  · intro h
    subst h
    simp [Feed.downloadImage]

/-- C1: evaluation of `FeedList.load` at the claim's failing input.  With
two records of which exactly one URL fails to parse, the result depends
on which record fails: `except FeedParseError` wraps the whole record
loop, so a failure of the first record aborts the load and yields 0
feeds (the claim promises 1 regardless), while a failure of the second
record yields 1 feed. -/
theorem C1_load_stops_at_first_parse_error :
    (FeedList.load { feeds := [] }
        (Except.ok [{ url := "bad", display := "B", enabled := true },
                    { url := "good", display := "G", enabled := true }])
        demoConstruct).feeds.length = 0
    ∧ (FeedList.load { feeds := [] }
        (Except.ok [{ url := "good", display := "G", enabled := true },
                    { url := "bad", display := "B", enabled := true }])
        demoConstruct).feeds.length = 1 := by
  refine ⟨?_, ?_⟩ <;> rfl

/-- C10: when the feed-list file cannot be opened or its content is not
valid JSON, `FeedList.load` raises nothing (it is total) and returns the
feed list exactly as it was before the call; the failure is only
logged. -/
theorem C10_load_file_failure_keeps_list (fl : FeedList) (err : String)
    (construct : FeedRecord → Except String Feed) :
    FeedList.load fl (Except.error err) construct = fl := rfl
